import Mathlib

/-!
Verification of the `aqstn` package initializer (`src/aqstn__init__.py`).

The module body of the initializer consists of a docstring binding and two
string-constant assignments.  We embed the module body as a list of
assignment statements executed over a Python-style namespace, modelled as an
association list from attribute names to string values, and we embed the raw
source text of the file to reason about its line structure.
-/

set_option maxRecDepth 8192

namespace Aqstn

/-- A Python module namespace: an association list from attribute names to
string values.  A fresh module starts from an arbitrary namespace supplied by
the import machinery. -/
def NS : Type := List (String × String)

instance : DecidableEq NS := by
  unfold NS
  infer_instance

/-- Bind a name to a value in a namespace: overwrite the first existing
binding of the name, or append a new binding at the end. -/
def nsSet (ns : NS) (k v : String) : NS :=
  match ns with
  | [] => [(k, v)]
  | (k', v') :: rest => if k' = k then (k, v) :: rest else (k', v') :: nsSet rest k v

/-- Look a name up in a namespace. -/
def nsGet (ns : NS) (k : String) : Option String :=
  match ns with
  | [] => none
  | (k', v') :: rest => if k' = k then some v' else nsGet rest k

/-- The exact value of the module docstring of `src/aqstn__init__.py`:
the text between the triple-quote delimiters, including the leading and
trailing newline characters. -/
def aqstn_doc : String :=
  "\nAutonomous Quantum-Swarm Trading Network (AQSTN)\nProduction-ready trading system integrating quantum computing, neural networks, and swarm intelligence.\n"

/-- The exact raw text of `src/aqstn__init__.py` (the file has no trailing
newline after the last line). -/
def aqstn_init_source : String :=
  "\"\"\"\nAutonomous Quantum-Swarm Trading Network (AQSTN)\nProduction-ready trading system integrating quantum computing, neural networks, and swarm intelligence.\n\"\"\"\n__version__ = \"1.0.0\"\n__author__ = \"Evolution Ecosystem\""

/-- The statements a module body may contain.  The `aqstn` initializer only
ever assigns a string constant to a name. -/
inductive Stmt where
  | assignConst (name : String) (value : String)
deriving DecidableEq

/-- The module body of `src/aqstn__init__.py`: CPython binds the module
docstring to `__doc__`, then executes the two metadata assignments. -/
def aqstn_body : List Stmt :=
  [Stmt.assignConst "__doc__" aqstn_doc,
   Stmt.assignConst "__version__" "1.0.0",
   Stmt.assignConst "__author__" "Evolution Ecosystem"]

/-- Execute one statement.  Assigning a constant to a name cannot raise, so
the error branch is never taken; it exists because the import machinery
propagates any exception raised by a statement of the module body. -/
def execStmt (s : Stmt) (ns : NS) : Except String NS :=
  match s with
  | Stmt.assignConst k v => Except.ok (nsSet ns k v)

/-- Execute a module body: run the statements in order, stopping at the
first exception. -/
def execBody (body : List Stmt) (ns : NS) : Except String NS :=
  match body with
  | [] => Except.ok ns
  | s :: rest =>
    match execStmt s ns with
    | Except.ok ns' => execBody rest ns'
    | Except.error e => Except.error e

/-- Importing the `aqstn` package executes its module body on the initial
module namespace. -/
def runImport (ns : NS) : Except String NS := execBody aqstn_body ns

/-- The namespace produced by importing the package from namespace `ns`. -/
def importedNs (ns : NS) : NS :=
  nsSet (nsSet (nsSet ns "__doc__" aqstn_doc) "__version__" "1.0.0")
    "__author__" "Evolution Ecosystem"

theorem runImport_eq (ns : NS) : runImport ns = Except.ok (importedNs ns) := rfl

/-- Big-step judgement: executing one statement in a namespace yields a
namespace. -/
inductive ExecStmtR : Stmt → NS → NS → Prop where
  | assignConst (k v : String) (ns : NS) :
      ExecStmtR (Stmt.assignConst k v) ns (nsSet ns k v)

/-- Big-step judgement: executing a statement list in a namespace yields a
namespace. -/
inductive ExecBodyR : List Stmt → NS → NS → Prop where
  | nil (ns : NS) : ExecBodyR [] ns ns
  | cons (s : Stmt) (rest : List Stmt) (ns ns1 ns2 : NS) :
      ExecStmtR s ns ns1 → ExecBodyR rest ns1 ns2 → ExecBodyR (s :: rest) ns ns2

theorem execStmtR_det {s : Stmt} {ns r1 r2 : NS}
    (h1 : ExecStmtR s ns r1) (h2 : ExecStmtR s ns r2) : r1 = r2 := by
  cases h1
  cases h2
  rfl

theorem execBodyR_det {body : List Stmt} {ns r1 r2 : NS}
    (h1 : ExecBodyR body ns r1) (h2 : ExecBodyR body ns r2) : r1 = r2 := by
  induction h1 generalizing r2 with
  | nil ns =>
    cases h2
    rfl
  | cons s rest ns ns1 ns2 hs hrest ih =>
    cases h2 with
    | cons _ _ _ ns1' ns2' hs' hrest' =>
      cases execStmtR_det hs hs'
      exact ih hrest'

/-- The big-step judgement agrees with the executable import function. -/
theorem execBodyR_runImport (ns : NS) : ExecBodyR aqstn_body ns (importedNs ns) := by
  refine ExecBodyR.cons _ _ _ _ _ (ExecStmtR.assignConst _ _ _) ?_
  refine ExecBodyR.cons _ _ _ _ _ (ExecStmtR.assignConst _ _ _) ?_
  exact ExecBodyR.cons _ _ _ _ _ (ExecStmtR.assignConst _ _ _) (ExecBodyR.nil _)

theorem nsGet_nsSet_same (ns : NS) (k v : String) :
    nsGet (nsSet ns k v) k = some v := by
  induction ns with
  | nil => simp [nsSet, nsGet]
  | cons p rest ih =>
    obtain ⟨k', v'⟩ := p
    by_cases h : k' = k
    · simp [nsSet, nsGet, h]
    · simp [nsSet, nsGet, h, ih]

theorem nsGet_nsSet_ne (ns : NS) (k v j : String) (hne : j ≠ k) :
    nsGet (nsSet ns k v) j = nsGet ns j := by
  have hkj : k ≠ j := fun h => hne (Eq.symm h)
  induction ns with
  | nil => simp [nsSet, nsGet, hkj]
  | cons p rest ih =>
    obtain ⟨k', v'⟩ := p
    by_cases h : k' = k
    · subst h
      simp [nsSet, nsGet, hkj]
    · simp [nsSet, nsGet, h, ih]

theorem nsSet_of_nsGet (ns : NS) (k v : String) (h : nsGet ns k = some v) :
    nsSet ns k v = ns := by
  induction ns with
  | nil => simp [nsGet] at h
  | cons p rest ih =>
    obtain ⟨k', v'⟩ := p
    by_cases hk : k' = k
    · subst hk
      simp [nsGet] at h
      simp [nsSet, h]
    · simp [nsGet, hk] at h
      simp [nsSet, hk, ih h]

theorem importedNs_doc (ns : NS) : nsGet (importedNs ns) "__doc__" = some aqstn_doc := by
  unfold importedNs
  rw [nsGet_nsSet_ne _ _ _ _ (by decide), nsGet_nsSet_ne _ _ _ _ (by decide),
    nsGet_nsSet_same]

theorem importedNs_version (ns : NS) :
    nsGet (importedNs ns) "__version__" = some "1.0.0" := by
  unfold importedNs
  rw [nsGet_nsSet_ne _ _ _ _ (by decide), nsGet_nsSet_same]

theorem importedNs_author (ns : NS) :
    nsGet (importedNs ns) "__author__" = some "Evolution Ecosystem" := by
  unfold importedNs
  rw [nsGet_nsSet_same]

theorem importedNs_frame (ns : NS) (k : String) (h1 : k ≠ "__doc__")
    (h2 : k ≠ "__version__") (h3 : k ≠ "__author__") :
    nsGet (importedNs ns) k = nsGet ns k := by
  unfold importedNs
  rw [nsGet_nsSet_ne _ _ _ _ h3, nsGet_nsSet_ne _ _ _ _ h2, nsGet_nsSet_ne _ _ _ _ h1]

theorem importedNs_idem (ns : NS) : importedNs (importedNs ns) = importedNs ns := by
  have hd : nsSet (importedNs ns) "__doc__" aqstn_doc = importedNs ns :=
    nsSet_of_nsGet _ _ _ (importedNs_doc ns)
  have hv : nsSet (importedNs ns) "__version__" "1.0.0" = importedNs ns :=
    nsSet_of_nsGet _ _ _ (importedNs_version ns)
  have ha : nsSet (importedNs ns) "__author__" "Evolution Ecosystem" = importedNs ns :=
    nsSet_of_nsGet _ _ _ (importedNs_author ns)
  show nsSet (nsSet (nsSet (importedNs ns) "__doc__" aqstn_doc) "__version__" "1.0.0")
    "__author__" "Evolution Ecosystem" = importedNs ns
  rw [hd, hv, ha]

/-- Does the character list `p` occur at the start of `s`? -/
def leadsWith : List Char → List Char → Bool
  | [], _ => true
  | _ :: _, [] => false
  | p :: ps, c :: cs => (p = c) && leadsWith ps cs

/-- Does the character list `p` occur anywhere inside `s`? -/
def hasSub : List Char → List Char → Bool
  | p, [] => leadsWith p []
  | p, c :: cs => leadsWith p (c :: cs) || hasSub p cs

/-- Does the string `pat` occur as a substring of `s`? -/
def containsSub (s pat : String) : Bool := hasSub pat.data s.data

/-- Split a character list into lines at newline characters, Python
`str.splitlines` style: a trailing newline does not produce a final empty
line.  `acc` holds the characters of the current line, reversed. -/
def pySplitlinesAux : List Char → List Char → List String
  | [], acc => if acc.isEmpty then [] else [String.mk acc.reverse]
  | c :: cs, acc =>
    if c = '\n' then String.mk acc.reverse :: pySplitlinesAux cs []
    else pySplitlinesAux cs (c :: acc)

/-- Python `str.splitlines` for newline-delimited text. -/
def pySplitlines (s : String) : List String := pySplitlinesAux s.data []

/-- Claim C1: executing the module body (docstring binding and the two
assignments) succeeds from every initial namespace and raises no exception;
the error branch of the embedded import is unreachable. -/
theorem claim_C1_import_succeeds (ns : NS) :
    runImport ns = Except.ok (importedNs ns) ∧ (runImport ns).isOk = true :=
  ⟨rfl, rfl⟩

/-- Claim C2: after importing the package, the attribute `__version__` is
bound and equals the string "1.0.0". -/
theorem claim_C2_version (ns ns' : NS) (h : runImport ns = Except.ok ns') :
    nsGet ns' "__version__" = some "1.0.0" := by
  rw [runImport_eq] at h
  injection h with h
  subst h
  exact importedNs_version ns

theorem claim_C2_version_witness :
    nsGet (importedNs []) "__version__" = some "1.0.0" :=
  claim_C2_version [] (importedNs []) rfl

/-- Claim C3: after importing the package, the attribute `__author__` is
bound and equals the string "Evolution Ecosystem". -/
theorem claim_C3_author (ns ns' : NS) (h : runImport ns = Except.ok ns') :
    nsGet ns' "__author__" = some "Evolution Ecosystem" := by
  rw [runImport_eq] at h
  injection h with h
  subst h
  exact importedNs_author ns

theorem claim_C3_author_witness :
    nsGet (importedNs []) "__author__" = some "Evolution Ecosystem" :=
  claim_C3_author [] (importedNs []) rfl

/-- Claim C4: after importing the package, `__doc__` is bound to the module
docstring, which is a non-empty string containing the substring "AQSTN". -/
theorem claim_C4_doc_nonempty_aqstn (ns ns' : NS)
    (h : runImport ns = Except.ok ns') :
    nsGet ns' "__doc__" = some aqstn_doc ∧ 0 < aqstn_doc.length ∧
      containsSub aqstn_doc "AQSTN" = true := by
  rw [runImport_eq] at h
  injection h with h
  subst h
  exact ⟨importedNs_doc ns, by decide, by decide⟩

theorem claim_C4_doc_nonempty_aqstn_witness :
    nsGet (importedNs []) "__doc__" = some aqstn_doc ∧ 0 < aqstn_doc.length ∧
      containsSub aqstn_doc "AQSTN" = true :=
  claim_C4_doc_nonempty_aqstn [] (importedNs []) rfl

/-- Claim C5: importing the package binds exactly the three attributes
`__doc__`, `__version__` and `__author__` in the package namespace, and
every other name is left exactly as it was in the initial namespace. -/
theorem claim_C5_exact_bindings (ns ns' : NS)
    (h : runImport ns = Except.ok ns') :
    nsGet ns' "__doc__" = some aqstn_doc ∧
    nsGet ns' "__version__" = some "1.0.0" ∧
    nsGet ns' "__author__" = some "Evolution Ecosystem" ∧
    ∀ k, k ≠ "__doc__" → k ≠ "__version__" → k ≠ "__author__" →
      nsGet ns' k = nsGet ns k := by
  rw [runImport_eq] at h
  injection h with h
  subst h
  exact ⟨importedNs_doc ns, importedNs_version ns, importedNs_author ns,
    fun k h1 h2 h3 => importedNs_frame ns k h1 h2 h3⟩

theorem claim_C5_exact_bindings_witness :
    nsGet (importedNs [("x", "y")]) "__version__" = some "1.0.0" ∧
    nsGet (importedNs [("x", "y")]) "x" = nsGet [("x", "y")] "x" :=
  ⟨(claim_C5_exact_bindings [("x", "y")] (importedNs [("x", "y")]) rfl).2.1,
    (claim_C5_exact_bindings [("x", "y")] (importedNs [("x", "y")]) rfl).2.2.2
      "x" (by decide) (by decide) (by decide)⟩

/-- Claim C6: the package docstring retrievable after import is the
three-line text of the source file: an empty first line followed by the
title line and the description line. -/
theorem claim_C6_doc_three_lines (ns ns' : NS)
    (h : runImport ns = Except.ok ns') :
    nsGet ns' "__doc__" = some aqstn_doc ∧
    pySplitlines aqstn_doc =
      ["", "Autonomous Quantum-Swarm Trading Network (AQSTN)",
       "Production-ready trading system integrating quantum computing, neural networks, and swarm intelligence."] ∧
    (pySplitlines aqstn_doc).length = 3 := by
  rw [runImport_eq] at h
  injection h with h
  subst h
  exact ⟨importedNs_doc ns, by decide, by decide⟩

theorem claim_C6_doc_three_lines_witness :
    nsGet (importedNs []) "__doc__" = some aqstn_doc ∧
    pySplitlines aqstn_doc =
      ["", "Autonomous Quantum-Swarm Trading Network (AQSTN)",
       "Production-ready trading system integrating quantum computing, neural networks, and swarm intelligence."] ∧
    (pySplitlines aqstn_doc).length = 3 :=
  claim_C6_doc_three_lines [] (importedNs []) rfl

/-- Claim C7 counterexample: the initializer source file does not consist of
exactly 5 lines; splitting its text into lines yields 6 lines, because the
docstring delimiters, the two docstring text lines and the two assignments
occupy six lines of the file. -/
theorem claim_C7_counterexample :
    ¬ (pySplitlines aqstn_init_source).length = 5 := by decide

/-- Claim C7 (amended): the package initializer source file consists of
exactly 6 lines (it contains 5 newline characters and no trailing newline):
the opening docstring delimiter, the two docstring text lines, the closing
delimiter, and the `__version__` and `__author__` assignments — nothing
else. -/
theorem claim_C7_six_lines :
    pySplitlines aqstn_init_source =
      ["\"\"\"", "Autonomous Quantum-Swarm Trading Network (AQSTN)",
       "Production-ready trading system integrating quantum computing, neural networks, and swarm intelligence.",
       "\"\"\"", "__version__ = \"1.0.0\"", "__author__ = \"Evolution Ecosystem\""] ∧
    (pySplitlines aqstn_init_source).length = 6 ∧
    (aqstn_init_source.data.filter (fun c => c == '\n')).length = 5 :=
  ⟨by decide, by decide, by decide⟩

/-- Claim C8: the embedded import is deterministic: any two executions of the
module body from the same initial namespace produce equal final
namespaces. -/
theorem claim_C8_deterministic (ns r1 r2 : NS)
    (h1 : ExecBodyR aqstn_body ns r1) (h2 : ExecBodyR aqstn_body ns r2) :
    r1 = r2 :=
  execBodyR_det h1 h2

theorem claim_C8_deterministic_witness :
    importedNs [] = importedNs [] :=
  claim_C8_deterministic [] (importedNs []) (importedNs [])
    (execBodyR_runImport []) (execBodyR_runImport [])

/-- Claim C9: executing the module body is idempotent: running it again on
the namespace produced by a first run yields that same namespace. -/
theorem claim_C9_idempotent (ns ns' : NS) (h : runImport ns = Except.ok ns') :
    runImport ns' = Except.ok ns' := by
  rw [runImport_eq] at h
  injection h with h
  subst h
  rw [runImport_eq, importedNs_idem]

theorem claim_C9_idempotent_witness :
    runImport (importedNs []) = Except.ok (importedNs []) :=
  claim_C9_idempotent [] (importedNs []) rfl

/-- Claim C10: the docstring value begins and ends with a newline character
(the triple-quoted literal is not stripped), so the first line of the split
is the empty string, and its non-empty lines are exactly the title line and
the description line. -/
theorem claim_C10_doc_shape :
    aqstn_doc.data.head? = some '\n' ∧
    aqstn_doc.data.getLast? = some '\n' ∧
    (pySplitlines aqstn_doc).head? = some "" ∧
    (pySplitlines aqstn_doc).filter (fun l => !(l == "")) =
      ["Autonomous Quantum-Swarm Trading Network (AQSTN)",
       "Production-ready trading system integrating quantum computing, neural networks, and swarm intelligence."] :=
  ⟨by decide, by decide, by decide, by decide⟩

end Aqstn
